import Mathlib

/-!
Formal model of the LifeOps AI orchestration layer.

This file is a shallow embedding, in Lean 4, of the orchestration and
input-validation code of the repository:

* `crew_setup.py` — the `LifeOpsCrew` orchestrator: `kickoff`,
  `_get_task_output`, `_extract_cross_domain_insights`,
  `_create_fallback_result`, `_create_fallback_response`;
* `utils.py` — `validate_user_inputs`.

Modelling conventions:

* Python strings are Lean `String`s; the string helpers below
  (`pySplitLines`, `pyLower`, `pyStrip`, `strContains`, `pyJoin`)
  reimplement the Python operations `str.split`, `str.lower`,
  `str.strip`, the `in` operator and `str.join` by structural recursion
  on character lists so that every proof can be checked by evaluation
  in the kernel.  All texts handled by the embedded code are ASCII, on
  which these helpers agree with the (Unicode-aware) Python versions.
* The numeric fields of the user-context dictionary are integers (the
  input layer produces integers from sliders and numeric inputs); the
  only non-integer arithmetic in the orchestrator is multiplication of
  the budget by the float literals `0.2`, `0.1` and `0.05`.  Those
  products are modelled exactly, represented as an integer count of
  hundredths (`centsFloatRepr` renders them the way Python `str`
  renders the float).  IEEE-754 rounding of the Python floats agrees
  with the exact value at the magnitudes the templates exercise and is
  not modelled further.
* The generation backend (CrewAI / Gemini) is opaque: an orchestration
  run is parametrised by a `RunOutcome` describing what the backend
  would have done (each task's `output`/`result` attribute and whether
  `crew.kickoff()` returned text or raised), plus the ambient elapsed
  time that `kickoff` would store in `execution_time`.  Crucially,
  whether task construction raises is NOT a free choice: the call at
  crew_setup.py:34 passes the keyword argument `context_tasks` to
  `create_life_coordination_task`, whose only definition (tasks.py:133)
  has parameters `(health_output, finance_output, study_output)` and no
  `**kwargs`, so Python raises `TypeError` at argument binding on every
  run, before any generation step.  This is modelled by `setup_result`,
  computed from the two argument lists of the source; it evaluates to
  an error, making the crew-execution branch of `kickoff`
  (crew_setup.py:40-77) dead code, exactly as in the source: every run
  returns `_create_fallback_response`.
-/

namespace LifeOps

/-- Substring test on character lists: `containsList needle hay` is true iff
`needle` occurs contiguously in `hay`.  Models the Python `in` operator on
strings (`"" in s` is `True`, as here). -/
def containsList (needle : List Char) : List Char → Bool
  | [] => needle.isEmpty
  | c :: rest => needle.isPrefixOf (c :: rest) || containsList needle rest

/-- Python `needle in hay` for strings. -/
def strContains (hay needle : String) : Bool :=
  containsList needle.data hay.data

/-- Split a character list at every occurrence of `c`, keeping empty pieces;
the result is never empty.  Models Python `str.split(c)`. -/
def splitOnChar (c : Char) : List Char → List (List Char)
  | [] => [[]]
  | x :: xs =>
    match splitOnChar c xs with
    | [] => [[]]
    | cur :: rest => if x = c then [] :: cur :: rest else (x :: cur) :: rest

/-- Python `text.split(chr(10))`, as used on the coordination output. -/
def pySplitLines (s : String) : List String :=
  (splitOnChar (Char.ofNat 10) s.data).map String.mk

/-- Python `str.lower()` (ASCII; all embedded texts are ASCII). -/
def pyLower (s : String) : String :=
  String.mk (s.data.map Char.toLower)

/-- Python `str.strip()` (ASCII whitespace; sufficient for the texts here). -/
def pyStrip (s : String) : String :=
  String.mk (((s.data.dropWhile Char.isWhitespace).reverse.dropWhile
    Char.isWhitespace).reverse)

/-- Python `sep.join(xs)`. -/
def pyJoin (sep : String) : List String → String
  | [] => ""
  | [s] => s
  | s :: rest => s ++ sep ++ pyJoin sep rest

/-- Render an exact amount of `cents` hundredths the way Python `str` renders
the corresponding float value (`24000 ↦ "240.0"`, `6000 ↦ "60.0"`,
`-50 ↦ "-0.5"`, `5 ↦ "0.05"`).  This is the rendering of
`budget*0.2`, `budget*0.1` and `budget*0.05` inside the f-string templates of
`crew_setup.py`, which always have at most two decimal digits. -/
def centsFloatRepr (cents : Int) : String :=
  let sign := if cents < 0 then "-" else ""
  let n := cents.natAbs
  let ip := n / 100
  let fr := n % 100
  if fr = 0 then sign ++ toString ip ++ ".0"
  else if fr % 10 = 0 then sign ++ toString ip ++ "." ++ toString (fr / 10)
  else if fr < 10 then sign ++ toString ip ++ ".0" ++ toString fr
  else sign ++ toString ip ++ "." ++ toString fr

/-- The user-context dictionary as consumed by `LifeOpsCrew` (`crew_setup.py`).
`none` models an absent key; the orchestrator reads every field through
`dict.get(key, default)`.  Fields that the orchestration layer never reads
(`exercise_frequency`, `exam_date`, `subjects`, `financial_goals`, ...) flow
through `user_context` untouched and are omitted from the model. -/
structure UserContext where
  stress_level : Option Int := none
  sleep_hours : Option Int := none
  days_until_exam : Option Int := none
  current_study_hours : Option Int := none
  monthly_budget : Option Int := none
  problem : Option String := none
deriving DecidableEq

/-- `self.user_context.get('stress_level', 5)` (crew_setup.py:127/142/175). -/
def UserContext.stress (c : UserContext) : Int := c.stress_level.getD 5

/-- `self.user_context.get('monthly_budget', 2000)` (crew_setup.py:128/143/176). -/
def UserContext.budget (c : UserContext) : Int := c.monthly_budget.getD 2000

/-- `self.user_context.get('days_until_exam', 30)` (crew_setup.py:129/144/177). -/
def UserContext.examDays (c : UserContext) : Int := c.days_until_exam.getD 30

/-- `self.user_context.get('sleep_hours', 7)` (crew_setup.py:178). -/
def UserContext.sleep (c : UserContext) : Int := c.sleep_hours.getD 7

/-- `self.user_context.get('current_study_hours', 3)` (crew_setup.py:179). -/
def UserContext.studyHours (c : UserContext) : Int := c.current_study_hours.getD 3

/-- `self.user_context.get('problem', 'General life optimization')`
(crew_setup.py:145). -/
def UserContext.problemText (c : UserContext) : String :=
  c.problem.getD "General life optimization"

/-- The connective-keyword set of `_extract_cross_domain_insights`
(crew_setup.py:109-112). -/
def insight_keywords : List String :=
  ["because", "therefore", "since", "thus", "consequently",
   "however", "although", "while", "whereas", "despite"]

/-- First selection rule (crew_setup.py:109-112): the lowered line contains at
least one connective keyword. -/
def keywordHit (line : String) : Bool :=
  insight_keywords.any (fun kw => strContains (pyLower line) kw)

/-- Second rule (crew_setup.py:114): `stress` together with `study` or
`finance`. -/
def stressCooc (line : String) : Bool :=
  strContains (pyLower line) "stress" &&
    (strContains (pyLower line) "study" || strContains (pyLower line) "finance")

/-- Third rule (crew_setup.py:116): `budget` together with `health` or
`study`. -/
def budgetCooc (line : String) : Bool :=
  strContains (pyLower line) "budget" &&
    (strContains (pyLower line) "health" || strContains (pyLower line) "study")

/-- Fourth rule (crew_setup.py:118): `health` together with `study` or
`finance`. -/
def healthCooc (line : String) : Bool :=
  strContains (pyLower line) "health" &&
    (strContains (pyLower line) "study" || strContains (pyLower line) "finance")

/-- One pass of the `if/elif/elif/elif` chain in the loop body of
`_extract_cross_domain_insights` (crew_setup.py:106-119): the first matching
rule appends `line.strip()`, later rules are not consulted. -/
def lineSelect (line : String) : Option String :=
  if keywordHit line then some (pyStrip line)
  else if stressCooc line then some (pyStrip line)
  else if budgetCooc line then some (pyStrip line)
  else if healthCooc line then some (pyStrip line)
  else none

/-- Disjunction of the four selection rules. -/
def anyRuleHit (line : String) : Bool :=
  keywordHit line || stressCooc line || budgetCooc line || healthCooc line

/-- The `cross_domain_lines` list built by the loop
(crew_setup.py:103-119). -/
def matchedLines (text : String) : List String :=
  (pySplitLines text).filterMap lineSelect

/-- The stress-branch fallback sentence (crew_setup.py:132). -/
def stressInsight (stress : Int) : String :=
  "• Because your stress is high (" ++ toString stress ++
    "/10), we recommend reducing study intensity and allocating time for relaxation activities."

/-- The budget-branch fallback sentence (crew_setup.py:134). -/
def budgetInsight (budget : Int) : String :=
  "• With a limited budget ($" ++ toString budget ++
    "), we suggest prioritizing free health activities and study resources."

/-- The exam-branch fallback sentence (crew_setup.py:136). -/
def examInsight (examDays : Int) : String :=
  "• Since your exam is in " ++ toString examDays ++
    " days, we recommend focused study sessions with adequate breaks to maintain health."

/-- The generic balance sentence (crew_setup.py:138). -/
def balanceInsight : String :=
  "• Cross-domain optimization applied to balance your health, finance, and study goals."

/-- `LifeOpsCrew._extract_cross_domain_insights` (crew_setup.py:98-138). -/
def extract_cross_domain_insights (ctx : UserContext) (coordination_output : String) : String :=
  if coordination_output = "" then
    "Cross-domain optimization applied based on your inputs."
  else if matchedLines coordination_output ≠ [] then
    " • " ++ pyJoin " • " ((matchedLines coordination_output).take 3)
  else if ctx.stress > 7 then stressInsight ctx.stress
  else if ctx.budget < 1500 then budgetInsight ctx.budget
  else if ctx.examDays < 7 then examInsight ctx.examDays
  else balanceInsight

/-- `budget*0.2` of crew_setup.py:193 (the "Savings target" amount), in
hundredths of a dollar. -/
def savings_target_cents (budget : Int) : Int := budget * 20

/-- `min(500, budget*0.1)` of crew_setup.py:195 (the "Emergency fund" amount),
in hundredths of a dollar. -/
def emergency_fund_cents (budget : Int) : Int := min 50000 (budget * 10)

/-- `budget*0.05` of crew_setup.py:196 (the "Health investment ... for
wellness" amount), in hundredths of a dollar. -/
def wellness_invest_cents (budget : Int) : Int := budget * 5

/-- `budget*0.1` of crew_setup.py:213 (the coordination template's allocation
"for health and study resources"), in hundredths of a dollar. -/
def health_alloc_cents (budget : Int) : Int := budget * 10

/-- Rendering of `min(500, budget*0.1)` inside the f-string: Python `min`
returns its first argument `500` (an int, rendered `"500"`) when
`500 <= budget*0.1`, and the float `budget*0.1` otherwise. -/
def emergency_fund_str (budget : Int) : String :=
  if budget * 10 < 50000 then centsFloatRepr (budget * 10) else "500"

/-- `LifeOpsCrew._create_fallback_result` (crew_setup.py:140-171): the single
coordination-plan string substituted for the crew output when
`crew.kickoff()` raises. -/
def create_fallback_result (ctx : UserContext) : String :=
  "\n        LIFE OPS COORDINATION PLAN\n        \n        Based on your inputs:\n        • Stress Level: "
  ++ toString ctx.stress ++
  "/10\n        • Monthly Budget: $" ++ toString ctx.budget ++
  "\n        • Exam in: " ++ toString ctx.examDays ++
  " days\n        • Challenge: " ++ ctx.problemText ++
  "\n        \n        CROSS-DOMAIN INSIGHTS:\n        1. Health → Study: Because stress is "
  ++ toString ctx.stress ++
  "/10, reduce study hours by 20% to prevent burnout.\n        2. Finance → Health: Allocate $"
  ++ centsFloatRepr (health_alloc_cents ctx.budget) ++
  " monthly for health activities like gym or meditation apps.\n        3. Study → Finance: Invest in study resources worth $"
  ++ centsFloatRepr (wellness_invest_cents ctx.budget) ++
  " to improve learning efficiency.\n        \n        RECOMMENDED WEEKLY SCHEDULE:\n        • Morning: Study/Work (2-3 hours)\n        • Afternoon: Health activity (1 hour)\n        • Evening: Leisure/Budget review (1 hour)\n        • Night: 7-8 hours sleep\n        \n        PRIORITY ACTIONS:\n        1. Immediate: Take a 10-minute break when stressed\n        2. This Week: Create a detailed budget plan\n        3. Ongoing: Follow a consistent sleep schedule\n        "

/-- The `health_advice` template of `_create_fallback_response`
(crew_setup.py:181-188). -/
def health_advice (stress sleep : Int) : String :=
  "\n        HEALTH RECOMMENDATIONS:\n        • Current stress: " ++ toString stress ++
  "/10 - " ++
  (if stress > 7 then "High stress detected" else "Moderate stress level") ++
  "\n        • Sleep target: Aim for " ++ toString (max 7 sleep) ++
  " hours nightly\n        • Daily activity: 30 minutes of moderate exercise\n        • Nutrition: Balanced meals with proper hydration\n        • Immediate action: Practice deep breathing when stressed\n        "

/-- The `finance_advice` template of `_create_fallback_response`
(crew_setup.py:190-197). -/
def finance_advice (budget : Int) : String :=
  "\n        FINANCE RECOMMENDATIONS:\n        • Monthly budget: $" ++ toString budget ++
  "\n        • Savings target: $" ++ centsFloatRepr (savings_target_cents budget) ++
  " (20% of income)\n        • Expense tracking: Use a budgeting app\n        • Emergency fund: Start with $"
  ++ emergency_fund_str budget ++
  "\n        • Health investment: Allocate $" ++ centsFloatRepr (wellness_invest_cents budget) ++
  " for wellness\n        "

/-- The `study_advice` template of `_create_fallback_response`
(crew_setup.py:199-206). -/
def study_advice (examDays studyHours : Int) : String :=
  "\n        STUDY RECOMMENDATIONS:\n        • Exam in: " ++ toString examDays ++
  " days\n        • Daily study: " ++ toString studyHours ++
  " hours using Pomodoro technique\n        • Focus areas: Break subjects into manageable chunks\n        • Breaks: 5-10 minute break every 45 minutes\n        • Review: Weekly revision of all topics\n        "

/-- The `coordination` template of `_create_fallback_response`
(crew_setup.py:208-228). -/
def coordination_advice (stress budget examDays sleep studyHours : Int) : String :=
  "\n        INTEGRATED LIFE PLAN:\n        \n        CROSS-DOMAIN REASONING:\n        • Because your stress is "
  ++ toString stress ++
  "/10, study hours are optimized at " ++ toString studyHours ++
  " hours/day\n        • With $" ++ toString budget ++
  " budget, $" ++ centsFloatRepr (health_alloc_cents budget) ++
  " is allocated for health and study resources\n        • Given " ++ toString examDays ++
  " days until exam, sleep is prioritized at " ++ toString (max 7 sleep) ++
  " hours/night\n        \n        WEEKLY SCHEDULE:\n        Monday-Friday:\n          - 7:00 AM: Wake up & light exercise\n          - 9:00 AM: Study session 1\n          - 12:00 PM: Lunch & break\n          - 2:00 PM: Study session 2\n          - 5:00 PM: Health activity\n          - 7:00 PM: Dinner & leisure\n          - 10:00 PM: Wind down & sleep\n        \n        Saturday: Review & planning day\n        Sunday: Rest & preparation\n        "

/-- The `cross_domain_insights` f-string of `_create_fallback_response`
(crew_setup.py:235). -/
def fallback_cross_insight (stress examDays : Int) : String :=
  "Because stress is " ++ toString stress ++ "/10 and exam is in " ++
  toString examDays ++
  " days, we balanced study intensity with health activities and budget allocation."

/-- The result record of `LifeOpsCrew.kickoff` (crew_setup.py:69-77 and
230-238): the `AnalysisReport` of the specification. -/
structure AnalysisReport where
  health : String
  finance : String
  study : String
  coordination : String
  cross_domain_insights : String
  user_context : UserContext
  execution_time : Int
deriving DecidableEq

/-- `LifeOpsCrew._create_fallback_response` (crew_setup.py:173-238), the
response used when the outer `try` of `kickoff` catches an exception.  Its
`execution_time` is the constant `0`. -/
def create_fallback_response (ctx : UserContext) : AnalysisReport :=
  { health := health_advice ctx.stress ctx.sleep
    finance := finance_advice ctx.budget
    study := study_advice ctx.examDays ctx.studyHours
    coordination :=
      coordination_advice ctx.stress ctx.budget ctx.examDays ctx.sleep ctx.studyHours
    cross_domain_insights := fallback_cross_insight ctx.stress ctx.examDays
    user_context := ctx
    execution_time := 0 }

/-- The `output` and `result` attributes of a CrewAI task object after the
run, as read by `_get_task_output`; `none` models an absent or falsy
attribute value, `some s` a present one whose `str()` is `s`. -/
structure TaskOut where
  output : Option String := none
  result : Option String := none
deriving DecidableEq

/-- Python truthiness filter used by `_get_task_output`: an attribute
participates only when it is present and truthy (a non-empty string under
the string model). -/
def truthyAttr : Option String → Option String
  | some s => if s = "" then none else some s
  | none => none

/-- `LifeOpsCrew._get_task_output` (crew_setup.py:86-96). -/
def get_task_output (task : TaskOut) (default_output : String) : String :=
  match truthyAttr task.output with
  | some s => s
  | none =>
    match truthyAttr task.result with
    | some s => s
    | none => default_output

deriving instance DecidableEq for Except

/-- What the opaque generation backend would have contributed to one
orchestration run, had construction succeeded: the three per-task attribute
states and the outcome of `crew.kickoff()` (`Except.error ()` models the
raised exception that would be caught at crew_setup.py:61).  Whether
construction succeeds is not part of this record: it is determined by the
source itself (see `setup_result`). -/
structure RunOutcome where
  healthTask : TaskOut := {}
  financeTask : TaskOut := {}
  studyTask : TaskOut := {}
  crewResult : Except Unit String := Except.error ()
deriving DecidableEq

/-- Parameter names of `LifeOpsTasks.create_life_coordination_task`
(tasks.py:133), excluding `self`; the method has no `**kwargs` and no other
definition. -/
def coordination_task_params : List String :=
  ["health_output", "finance_output", "study_output"]

/-- Keyword arguments of the call
`self.tasks.create_life_coordination_task(context_tasks=[...])` at
crew_setup.py:34-36. -/
def coordination_task_call_kwargs : List String := ["context_tasks"]

/-- Python keyword-argument binding: a call whose keyword arguments are not
all parameter names of the callee raises `TypeError` (modelled as
`Except.error ()`) before the callee body runs. -/
def kwargs_bind (params kwargs : List String) : Except Unit Unit :=
  if kwargs.all (fun k => params.contains k) then Except.ok () else Except.error ()

/-- Outcome of the task-construction phase of `kickoff`
(crew_setup.py:24-38): the coordination-task call binds the keyword
`context_tasks` against the parameters of tasks.py:133, so this evaluates to
`Except.error ()` — every run raises `TypeError` here, before any generation
step, and the exception is caught by the outer `except` at
crew_setup.py:81. -/
def setup_result : Except Unit Unit :=
  kwargs_bind coordination_task_params coordination_task_call_kwargs

/-- `LifeOpsCrew.kickoff` (crew_setup.py:18-84).  Task construction always
raises (`setup_result`), so every run returns `_create_fallback_response`;
the `Except.ok` branch transcribes the crew-execution code of
crew_setup.py:40-77, which is dead in the source for the same reason it is
unreachable here.  `elapsed` is the ambient wall-clock duration
`time.time() - start_time` that the dead branch would store in
`execution_time`.  In that branch the argument of
`_extract_cross_domain_insights` is
`str(final_result) if final_result else ""`, which under the string model
equals `final_result` in both cases. -/
def kickoff (ctx : UserContext) (run : RunOutcome) (elapsed : Int) : AnalysisReport :=
  match setup_result with
  | Except.error _ => create_fallback_response ctx
  | Except.ok _ =>
    let final_result :=
      match run.crewResult with
      | Except.ok s => s
      | Except.error _ => create_fallback_result ctx
    { health := get_task_output run.healthTask "Health analysis completed successfully."
      finance := get_task_output run.financeTask "Finance analysis completed successfully."
      study := get_task_output run.studyTask "Study analysis completed successfully."
      coordination :=
        if final_result = "" then "Life coordination plan created." else final_result
      cross_domain_insights := extract_cross_domain_insights ctx final_result
      user_context := ctx
      execution_time := elapsed }

/-- A value of the input dictionary handed to `validate_user_inputs`
(utils.py:493-513): `pyNone` is Python `None`, `pyNum` a numeric value
(`int` or `float`, modelled as an exact rational), `pyStr` a string, and
`pyObj` any other object carrying its `str()` rendering. -/
inductive PyVal where
  | pyNone : PyVal
  | pyNum : ℚ → PyVal
  | pyStr : String → PyVal
  | pyObj : String → PyVal
deriving DecidableEq

/-- The per-entry body of the loop in `validate_user_inputs`
(utils.py:497-511). -/
def validateValue (key : String) (value : PyVal) : PyVal :=
  match value with
  | PyVal.pyNone => PyVal.pyStr ""
  | PyVal.pyNum v =>
    if key = "stress_level" then PyVal.pyNum (max 1 (min 10 v))
    else if key = "sleep_hours" ∨ key = "current_study_hours" then
      PyVal.pyNum (max 0 (min 24 v))
    else if key = "monthly_budget" ∨ key = "current_expenses" then
      PyVal.pyNum (max 0 (min 1000000 v))
    else PyVal.pyNum v
  | PyVal.pyStr s => PyVal.pyStr s
  | PyVal.pyObj r => PyVal.pyStr r

/-- `validate_user_inputs` (utils.py:493-513); the dictionary is modelled as
an association list in insertion order. -/
def validate_user_inputs (inputs : List (String × PyVal)) : List (String × PyVal) :=
  inputs.map (fun kv => (kv.1, validateValue kv.1 kv.2))

/-! ### Helper lemmas -/

/-- A string whose left part is non-empty is non-empty. -/
theorem append_ne_empty_of_left {s : String} (t : String) (h : s ≠ "") :
    s ++ t ≠ "" := by
  intro hc
  apply h
  apply String.ext
  have hd := congrArg String.data hc
  rw [String.data_append] at hd
  simpa using (List.append_eq_nil.mp hd).1

/-- `truthyAttr` only returns truthy (non-empty) strings. -/
theorem truthyAttr_some_ne {o : Option String} {s : String}
    (h : truthyAttr o = some s) : s ≠ "" := by
  unfold truthyAttr at h
  cases o with
  | none => simp at h
  | some x =>
    by_cases hx : x = ""
    · simp [hx] at h
    · simp [hx] at h
      exact h ▸ hx

/-- `_get_task_output` never returns an empty string when its default is
non-empty. -/
theorem get_task_output_ne_empty (task : TaskOut) {d : String} (hd : d ≠ "") :
    get_task_output task d ≠ "" := by
  unfold get_task_output
  cases ho : truthyAttr task.output with
  | some s => simpa [ho] using truthyAttr_some_ne ho
  | none =>
    cases hr : truthyAttr task.result with
    | some s => simpa [ho, hr] using truthyAttr_some_ne hr
    | none => simpa [ho, hr] using hd

/-- The fallback coordination plan is never the empty string. -/
theorem create_fallback_result_ne_empty (ctx : UserContext) :
    create_fallback_result ctx ≠ "" := by
  unfold create_fallback_result
  repeat apply append_ne_empty_of_left
  decide

/-- The insight extractor never returns an empty string. -/
theorem extract_cross_domain_insights_ne_empty (ctx : UserContext) (s : String) :
    extract_cross_domain_insights ctx s ≠ "" := by
  unfold extract_cross_domain_insights
  split
  · decide
  · split
    · apply append_ne_empty_of_left
      decide
    · split
      · unfold stressInsight
        repeat apply append_ne_empty_of_left
        decide
      · split
        · unfold budgetInsight
          repeat apply append_ne_empty_of_left
          decide
        · split
          · unfold examInsight
            repeat apply append_ne_empty_of_left
            decide
          · unfold balanceInsight
            decide

/-- The `health_advice` fallback template is never empty. -/
theorem health_advice_ne_empty (stress sleep : Int) :
    health_advice stress sleep ≠ "" := by
  unfold health_advice
  repeat apply append_ne_empty_of_left
  decide

/-- The `finance_advice` fallback template is never empty. -/
theorem finance_advice_ne_empty (budget : Int) : finance_advice budget ≠ "" := by
  unfold finance_advice
  repeat apply append_ne_empty_of_left
  decide

/-- The `study_advice` fallback template is never empty. -/
theorem study_advice_ne_empty (examDays studyHours : Int) :
    study_advice examDays studyHours ≠ "" := by
  unfold study_advice
  repeat apply append_ne_empty_of_left
  decide

/-- The `coordination` fallback template is never empty. -/
theorem coordination_advice_ne_empty (stress budget examDays sleep studyHours : Int) :
    coordination_advice stress budget examDays sleep studyHours ≠ "" := by
  unfold coordination_advice
  repeat apply append_ne_empty_of_left
  decide

/-- The fallback `cross_domain_insights` sentence is never empty. -/
theorem fallback_cross_insight_ne_empty (stress examDays : Int) :
    fallback_cross_insight stress examDays ≠ "" := by
  unfold fallback_cross_insight
  repeat apply append_ne_empty_of_left
  decide

/-- Every run of `kickoff` returns `_create_fallback_response`: the
coordination-task call raises `TypeError` (see `setup_result`) and the outer
`except` converts it, whatever the backend outcome and elapsed time. -/
theorem kickoff_eq_fallback_response (ctx : UserContext) (run : RunOutcome)
    (t : Int) : kickoff ctx run t = create_fallback_response ctx := rfl

/-! ### C1 -/

/-- C1 (confirmed): the coordination-task call of crew_setup.py:34 raises
`TypeError` at keyword binding on every run, before any generation step, so
every orchestration run — in particular any run in which a generation step
fails with a `GenerationFailure` — takes the fallback path of the outer
`except` and returns `_create_fallback_response`: all four text fields of
the resulting report are the deterministically computed fallback templates
of the UserContext, the report does not depend on the backend outcome at
all, and no report ever mixes generated text with templated fallback
text. -/
theorem kickoff_all_fields_fallback :
    (∀ (ctx : UserContext) (run : RunOutcome) (t : Int),
      kickoff ctx run t = create_fallback_response ctx ∧
      (kickoff ctx run t).health = health_advice ctx.stress ctx.sleep ∧
      (kickoff ctx run t).finance = finance_advice ctx.budget ∧
      (kickoff ctx run t).study = study_advice ctx.examDays ctx.studyHours ∧
      (kickoff ctx run t).coordination =
        coordination_advice ctx.stress ctx.budget ctx.examDays ctx.sleep
          ctx.studyHours) ∧
    setup_result = Except.error () :=
  ⟨fun ctx run t =>
    ⟨kickoff_eq_fallback_response ctx run t, rfl, rfl, rfl, rfl⟩, rfl⟩

/-! ### C2 -/

/-- C2 (confirmed): for every user context — including one with every
optional field missing — and for every backend outcome, `kickoff` returns a
complete report whose five text fields are all non-empty; there is no
partial or null result. -/
theorem kickoff_always_full_report (ctx : UserContext) (run : RunOutcome)
    (t : Int) :
    (kickoff ctx run t).health ≠ "" ∧
    (kickoff ctx run t).finance ≠ "" ∧
    (kickoff ctx run t).study ≠ "" ∧
    (kickoff ctx run t).coordination ≠ "" ∧
    (kickoff ctx run t).cross_domain_insights ≠ "" := by
  rw [kickoff_eq_fallback_response]
  exact ⟨health_advice_ne_empty _ _, finance_advice_ne_empty _,
    study_advice_ne_empty _ _, coordination_advice_ne_empty _ _ _ _ _,
    fallback_cross_insight_ne_empty _ _⟩

/-! ### C3 -/

/-- C3 (confirmed): any two orchestration runs with identical UserContext —
in particular two runs in which the generation step is forced to fail —
produce byte-identical AnalysisReports: the report is a function of the
UserContext alone, independent of the backend outcome and of elapsed
wall-clock time, and its `execution_time` is the constant `0` of
`_create_fallback_response` (crew_setup.py:237), not ambient time. -/
theorem kickoff_report_byte_identical :
    (∀ (ctx : UserContext) (run1 run2 : RunOutcome) (t1 t2 : Int),
      kickoff ctx run1 t1 = kickoff ctx run2 t2) ∧
    (∀ (ctx : UserContext) (run : RunOutcome) (t : Int),
      (kickoff ctx run t).execution_time = 0) :=
  ⟨fun ctx run1 run2 t1 t2 =>
    (kickoff_eq_fallback_response ctx run1 t1).trans
      (kickoff_eq_fallback_response ctx run2 t2).symm,
   fun _ _ _ => rfl⟩

/-! ### C4 -/

/-- The user context of spec property P3:
`{stress_level: 9, monthly_budget: 1000, days_until_exam: 3}`. -/
def ctx_p3 : UserContext :=
  { stress_level := some 9, monthly_budget := some 1000, days_until_exam := some 3 }

/-- C4 (confirmed): on a non-empty coordination text in which no line matches
any extraction rule, the extractor emits exactly one of the four fixed
templates by first-match precedence (stress, then budget, then exam, then
the generic balance sentence); in particular for
`{stress_level: 9, monthly_budget: 1000, days_until_exam: 3}` it returns the
stress-focused template containing "stress is high (9/10)", not the budget-
or exam-focused templates. -/
theorem insight_template_precedence :
    (∀ (ctx : UserContext) (out : String), out ≠ "" → matchedLines out = [] →
      extract_cross_domain_insights ctx out =
        (if ctx.stress > 7 then stressInsight ctx.stress
         else if ctx.budget < 1500 then budgetInsight ctx.budget
         else if ctx.examDays < 7 then examInsight ctx.examDays
         else balanceInsight)) ∧
    extract_cross_domain_insights ctx_p3 "No cross-links found." =
      stressInsight 9 ∧
    strContains (stressInsight 9) "stress is high (9/10)" = true ∧
    stressInsight 9 ≠ budgetInsight 1000 ∧
    stressInsight 9 ≠ examInsight 3 := by
  refine ⟨?_, by rfl, by decide, by decide, by decide⟩
  intro ctx out hne hml
  unfold extract_cross_domain_insights
  rw [if_neg hne, hml]
  simp

/-- C4 witness: the first-match precedence statement evaluated at the P3
context and a concrete matchless text. -/
theorem insight_template_precedence_witness :
    ("No cross-links found." : String) ≠ "" ∧
    matchedLines "No cross-links found." = [] ∧
    extract_cross_domain_insights ctx_p3 "No cross-links found." =
      (if ctx_p3.stress > 7 then stressInsight ctx_p3.stress
       else if ctx_p3.budget < 1500 then budgetInsight ctx_p3.budget
       else if ctx_p3.examDays < 7 then examInsight ctx_p3.examDays
       else balanceInsight) :=
  ⟨by decide, by decide,
    insight_template_precedence.1 ctx_p3 "No cross-links found."
      (by decide) (by decide)⟩

/-! ### C5 -/

/-- The coordination text of spec property P4. -/
def txt_p4 : String :=
  "Line A.\nBecause stress is high, reduce study hours.\nLine C mentions budget and health together.\nLine D is neutral."

/-- C5 (confirmed): on the P4 text the extractor selects exactly lines 2
(connective keyword `because`) and 3 (`budget`+`health` co-occurrence),
omits lines 1 and 4, keeps at most 3 entries, and joins the selections with
the separator " • " (the code also prefixes the joined list with a leading
" • "). -/
theorem insight_keyword_extraction (ctx : UserContext) :
    pySplitLines txt_p4 =
      ["Line A.", "Because stress is high, reduce study hours.",
       "Line C mentions budget and health together.", "Line D is neutral."] ∧
    matchedLines txt_p4 =
      ["Because stress is high, reduce study hours.",
       "Line C mentions budget and health together."] ∧
    keywordHit "Because stress is high, reduce study hours." = true ∧
    budgetCooc "Line C mentions budget and health together." = true ∧
    anyRuleHit "Line A." = false ∧
    anyRuleHit "Line D is neutral." = false ∧
    (matchedLines txt_p4).length ≤ 3 ∧
    extract_cross_domain_insights ctx txt_p4 =
      " • Because stress is high, reduce study hours. • Line C mentions budget and health together." :=
  ⟨by decide, by decide, by decide, by decide, by decide, by decide,
    by decide, by rfl⟩

/-! ### C6 -/

/-- The `if/elif` chain appends `line.strip()` exactly when some rule
matches, and at most once per line. -/
theorem lineSelect_eq_rule_hit (line : String) :
    lineSelect line = if anyRuleHit line then some (pyStrip line) else none := by
  unfold lineSelect anyRuleHit
  cases hk : keywordHit line <;> cases hs : stressCooc line <;>
    cases hb : budgetCooc line <;> cases hh : healthCooc line <;> simp

/-- `filterMap` over the per-line selection is the stripped filter of the
matching lines. -/
theorem filterMap_lineSelect (L : List String) :
    L.filterMap lineSelect = (L.filter anyRuleHit).map pyStrip := by
  induction L with
  | nil => rfl
  | cons l ls ih =>
    rw [List.filterMap_cons, List.filter_cons, lineSelect_eq_rule_hit]
    cases anyRuleHit l <;> simp [ih]

/-- A line of the coordination text that satisfies both the keyword rule and
a co-occurrence rule. -/
def both_rules_line : String := "Because stress affects study plans"

/-- C6 counterexample: `both_rules_line` satisfies both the connective-keyword
rule and the stress co-occurrence rule, yet the combined match list for the
text consisting of that single line contains it exactly once, not twice —
the `if/elif` chain applies at most one rule per line, so cross-rule
duplicates cannot arise. -/
theorem cross_rule_line_appears_once :
    keywordHit both_rules_line = true ∧
    stressCooc both_rules_line = true ∧
    matchedLines both_rules_line = [both_rules_line] ∧
    (matchedLines both_rules_line).count both_rules_line = 1 := by decide

/-- C6 (corrected): the selection rules are applied per line in a first-match
`if/elif` chain, so each input line contributes at most one entry (its
stripped text) to the combined ordered match list even when it satisfies
several rules; the match list is exactly the stripped filter of the matching
lines, and duplicate entries can only come from duplicate (or
equal-after-strip) input lines, never from one line matching two rules. -/
theorem insight_rules_first_match :
    (∀ text : String,
      matchedLines text = ((pySplitLines text).filter anyRuleHit).map pyStrip) ∧
    (∀ line : String, anyRuleHit line = true → pySplitLines line = [line] →
      matchedLines line = [pyStrip line]) ∧
    (∀ text : String,
      (matchedLines text).length ≤ (pySplitLines text).length) := by
  refine ⟨fun text => ?_, fun line h hsplit => ?_, fun text => ?_⟩
  · unfold matchedLines
    exact filterMap_lineSelect _
  · unfold matchedLines
    rw [hsplit, List.filterMap_cons, lineSelect_eq_rule_hit, h]
    rfl
  · unfold matchedLines
    rw [filterMap_lineSelect, List.length_map]
    exact List.length_filter_le _ _

/-- C6 witness: the first-match description evaluated on the line matching
two rules. -/
theorem insight_rules_first_match_witness :
    anyRuleHit both_rules_line = true ∧
    pySplitLines both_rules_line = [both_rules_line] ∧
    matchedLines both_rules_line = [pyStrip both_rules_line] :=
  ⟨by decide, by decide,
    insight_rules_first_match.2.1 both_rules_line (by decide) (by decide)⟩

/-! ### C9 -/

/-- A user context with `stress_level` 9 and nothing else set. -/
def ctx_stress9 : UserContext := { stress_level := some 9 }

/-- C9 (confirmed): on the empty coordination text the extractor immediately
returns the fixed sentence "Cross-domain optimization applied based on your
inputs.", without consulting the stress/budget/exam precedence templates —
in particular, with `stress_level` 9 the result is this generic sentence and
not the stress-focused template. -/
theorem empty_coordination_generic_insight :
    (∀ ctx : UserContext,
      extract_cross_domain_insights ctx "" =
        "Cross-domain optimization applied based on your inputs.") ∧
    extract_cross_domain_insights ctx_stress9 "" ≠ stressInsight 9 ∧
    ctx_stress9.stress = 9 :=
  ⟨fun _ => rfl, by decide, by decide⟩

/-! ### C7 and C10: validate_user_inputs -/

/-- Clamp equation for a numeric `stress_level`. -/
theorem validateValue_stress (q : ℚ) :
    validateValue "stress_level" (PyVal.pyNum q) = PyVal.pyNum (max 1 (min 10 q)) := by
  simp [validateValue]

/-- Clamp equation for a numeric `sleep_hours`. -/
theorem validateValue_sleep (q : ℚ) :
    validateValue "sleep_hours" (PyVal.pyNum q) = PyVal.pyNum (max 0 (min 24 q)) := by
  simp [validateValue]

/-- Clamp equation for a numeric `current_study_hours`. -/
theorem validateValue_study (q : ℚ) :
    validateValue "current_study_hours" (PyVal.pyNum q) =
      PyVal.pyNum (max 0 (min 24 q)) := by
  simp [validateValue]

/-- Clamp equation for a numeric `monthly_budget`. -/
theorem validateValue_budget (q : ℚ) :
    validateValue "monthly_budget" (PyVal.pyNum q) =
      PyVal.pyNum (max 0 (min 1000000 q)) := by
  simp [validateValue]

/-- Clamp equation for a numeric `current_expenses`. -/
theorem validateValue_expenses (q : ℚ) :
    validateValue "current_expenses" (PyVal.pyNum q) =
      PyVal.pyNum (max 0 (min 1000000 q)) := by
  simp [validateValue]

/-- C7 (confirmed): `validate_user_inputs` clamps numeric fields to their
domain ranges — `stress_level` into `[1,10]` (so `15 ↦ 10` and `-3 ↦ 1`),
`sleep_hours` and `current_study_hours` into `[0,24]`, and `monthly_budget`
and `current_expenses` to non-negative values. -/
theorem validate_user_inputs_clamping :
    (∀ (inputs : List (String × PyVal)) (q : ℚ),
        ("stress_level", PyVal.pyNum q) ∈ inputs →
        ("stress_level", PyVal.pyNum (max 1 (min 10 q))) ∈
          validate_user_inputs inputs) ∧
    (∀ q : ℚ, 1 ≤ max 1 (min 10 q) ∧ max 1 (min 10 q) ≤ 10) ∧
    validateValue "stress_level" (PyVal.pyNum 15) = PyVal.pyNum 10 ∧
    validateValue "stress_level" (PyVal.pyNum (-3)) = PyVal.pyNum 1 ∧
    (∀ q : ℚ,
        validateValue "sleep_hours" (PyVal.pyNum q) =
          PyVal.pyNum (max 0 (min 24 q)) ∧
        validateValue "current_study_hours" (PyVal.pyNum q) =
          PyVal.pyNum (max 0 (min 24 q)) ∧
        0 ≤ max 0 (min 24 q) ∧ max 0 (min 24 q) ≤ 24) ∧
    (∀ q : ℚ, ∃ r s : ℚ,
        validateValue "monthly_budget" (PyVal.pyNum q) = PyVal.pyNum r ∧ 0 ≤ r ∧
        validateValue "current_expenses" (PyVal.pyNum q) = PyVal.pyNum s ∧ 0 ≤ s) := by
  refine ⟨?_, ?_, ?_, ?_, ?_, ?_⟩
  · intro inputs q h
    unfold validate_user_inputs
    have h2 :=
      List.mem_map_of_mem (fun kv : String × PyVal => (kv.1, validateValue kv.1 kv.2)) h
    simpa [validateValue_stress] using h2
  · exact fun q => ⟨le_max_left _ _, max_le (by norm_num) (min_le_left _ _)⟩
  · rw [validateValue_stress]
    norm_num [min_def, max_def]
  · rw [validateValue_stress]
    norm_num [min_def, max_def]
  · exact fun q => ⟨validateValue_sleep q, validateValue_study q,
      le_max_left _ _, max_le (by norm_num) (min_le_left _ _)⟩
  · exact fun q => ⟨max 0 (min 1000000 q), max 0 (min 1000000 q),
      validateValue_budget q, le_max_left _ _,
      validateValue_expenses q, le_max_left _ _⟩

/-- C7 witness: the clamping statement evaluated on the one-entry mapping
`{"stress_level": 15}`. -/
theorem validate_user_inputs_clamping_witness :
    ("stress_level", PyVal.pyNum (max 1 (min 10 (15:ℚ)))) ∈
      validate_user_inputs [("stress_level", PyVal.pyNum 15)] :=
  validate_user_inputs_clamping.1 [("stress_level", PyVal.pyNum 15)] 15
    (List.Mem.head _)

/-- C10 (confirmed): `validate_user_inputs` caps numeric `monthly_budget` and
`current_expenses` at 1,000,000, maps `None` to the empty string, converts
every non-numeric non-`None` value to its string representation, and every
value of the returned mapping is a range-limited number or a string. -/
theorem validate_user_inputs_shape :
    (∀ q : ℚ,
        validateValue "monthly_budget" (PyVal.pyNum q) =
          PyVal.pyNum (max 0 (min 1000000 q)) ∧
        validateValue "current_expenses" (PyVal.pyNum q) =
          PyVal.pyNum (max 0 (min 1000000 q)) ∧
        max 0 (min 1000000 q) ≤ 1000000) ∧
    validateValue "monthly_budget" (PyVal.pyNum 2000000) = PyVal.pyNum 1000000 ∧
    (∀ k : String, validateValue k PyVal.pyNone = PyVal.pyStr "") ∧
    (∀ (k s : String),
        validateValue k (PyVal.pyStr s) = PyVal.pyStr s ∧
        validateValue k (PyVal.pyObj s) = PyVal.pyStr s) ∧
    (∀ (inputs : List (String × PyVal)) (kv : String × PyVal),
        kv ∈ validate_user_inputs inputs →
        (∃ q, kv.2 = PyVal.pyNum q) ∨ (∃ s, kv.2 = PyVal.pyStr s)) := by
  refine ⟨?_, ?_, fun k => rfl, fun k s => ⟨rfl, rfl⟩, ?_⟩
  · exact fun q => ⟨validateValue_budget q, validateValue_expenses q,
      max_le (by norm_num) (min_le_left _ _)⟩
  · rw [validateValue_budget]
    norm_num [min_def, max_def]
  · intro inputs kv h
    unfold validate_user_inputs at h
    obtain ⟨⟨k, v⟩, hmem, rfl⟩ := List.mem_map.mp h
    dsimp only
    cases v with
    | pyNone => exact Or.inr ⟨"", rfl⟩
    | pyNum q =>
      left
      dsimp only [validateValue]
      split
      · exact ⟨_, rfl⟩
      · split
        · exact ⟨_, rfl⟩
        · split
          · exact ⟨_, rfl⟩
          · exact ⟨_, rfl⟩
    | pyStr s => exact Or.inr ⟨s, rfl⟩
    | pyObj r => exact Or.inr ⟨r, rfl⟩

/-- C10 witness: the shape statement evaluated on the one-entry mapping
`{"note": <object rendered "today">}`. -/
theorem validate_user_inputs_shape_witness :
    (∃ q, (("note", PyVal.pyStr "today") : String × PyVal).2 = PyVal.pyNum q) ∨
    (∃ s, (("note", PyVal.pyStr "today") : String × PyVal).2 = PyVal.pyStr s) :=
  validate_user_inputs_shape.2.2.2.2 [("note", PyVal.pyObj "today")]
    ("note", PyVal.pyStr "today") (by decide)

/-! ### C8 -/

/-- The user context of spec property P7: stress 8, sleep 5, budget 1200,
exam in 4 days, 4 study hours. -/
def ctx_p7 : UserContext :=
  { stress_level := some 8, sleep_hours := some 5, monthly_budget := some 1200,
    days_until_exam := some 4, current_study_hours := some 4 }

set_option maxRecDepth 100000 in
/-- C8 counterexample: the amount the finance fallback template labels
"for wellness" is `budget*0.05` — 5% of the budget, not the claimed 10%: for
a $1200 budget it is $60 (6000 hundredths), not $120.  The 10% allocation
(12000 hundredths) appears only in the coordination template, labelled "for
health and study resources". -/
theorem wellness_allocation_is_five_percent :
    wellness_invest_cents 1200 = 6000 ∧
    wellness_invest_cents 1200 ≠ 12000 ∧
    health_alloc_cents 1200 = 12000 ∧
    strContains (finance_advice 1200)
      "Health investment: Allocate $60.0 for wellness" = true ∧
    strContains (finance_advice 1200) "Allocate $120.0 for wellness" = false := by
  decide

set_option maxRecDepth 100000 in
/-- C8 (corrected): the fallback synthesis renders its templates purely from
the UserContext numeric fields with fixed arithmetic — the savings target is
20% of `monthly_budget` (a $1200 budget yields a $240.0 savings target), the
emergency fund is `min(500, 10% of budget)`, the finance template's wellness
("Health investment") amount is 5% of the budget, and the 10% allocation
appears in the coordination template for health and study resources.
Amounts are in hundredths of a dollar. -/
theorem fallback_finance_arithmetic :
    (∀ budget : Int,
        savings_target_cents budget = 20 * budget ∧
        emergency_fund_cents budget = min 50000 (10 * budget) ∧
        wellness_invest_cents budget = 5 * budget ∧
        health_alloc_cents budget = 10 * budget) ∧
    savings_target_cents 1200 = 24000 ∧
    strContains (finance_advice 1200)
      "Savings target: $240.0 (20% of income)" = true ∧
    strContains (finance_advice 1200) "Emergency fund: Start with $120.0" = true ∧
    strContains (coordination_advice 8 1200 4 5 4)
      "With $1200 budget, $120.0 is allocated for health and study resources" = true ∧
    (create_fallback_response ctx_p7).finance = finance_advice 1200 := by
  refine ⟨fun b => ⟨?_, ?_, ?_, ?_⟩, by decide, by decide, by decide, by decide, rfl⟩
  · unfold savings_target_cents
    ring
  · unfold emergency_fund_cents
    rw [Int.mul_comm]
  · unfold wellness_invest_cents
    ring
  · unfold health_alloc_cents
    ring

end LifeOps
